import Mathlib

/-!
Verification of the united-resolver cross-chain swap resolver.

This file gives a shallow embedding of the resolver's core components and
proves the specification claims against it:

* `ProfitabilityAnalyzer` (src/dist/services/ProfitabilityAnalyzer.js):
  order analysis, gas estimation, liquidity check, fill decision.
* `OrderMonitor` (src/dist/services/OrderMonitor.js): order validation and
  submission.
* `EscrowExecutor` (src/dist/services/OrderMonitor.js, second module):
  confirmation checks, Cosmos escrow locking, escrow cancellation.
* `CrossChainResolver` (src/dist/resolver/CrossChainResolver.js): the atomic
  swap orchestration (`executeAtomicSwap`) and new-order processing.
* `Resolver` (src/resolver/resolver.ts variant with swap tracking):
  `processOrders`, `addSwapOrder`, `checkAndHandleTimeout`.

JavaScript numbers are modelled by `ℚ` (the arithmetic in the analyzed paths
is exact decimal arithmetic well within double precision); `NaN` results of
`parseFloat` are modelled by `Option ℚ` with `none` for `NaN` where that
matters.  Asynchronous chain calls are modelled by explicit environments
recording the outcome each call would produce, and the side effects of a run
are collected as a trace of events.
-/

/-- A chain identifier: the code dispatches on `typeof chainId === 'string'`,
so a chain id is either an EVM numeric id or a Cosmos string id. -/
inductive ChainId where
  | evm (n : ℕ)
  | cosmos (s : String)
deriving DecidableEq, Repr

namespace ChainId

/-- `typeof chainId === 'string'` in the source. -/
def isString : ChainId → Bool
  | evm _ => false
  | cosmos _ => true

end ChainId

/-! ## ProfitabilityAnalyzer (src/dist/services/ProfitabilityAnalyzer.js) -/

namespace ProfitabilityAnalyzer

/-- The fields of a `CrossChainOrder` used by the analyzer.  Amounts are
carried already parsed (`parseFloat(order.srcAmount)` etc.): the analyzed
scenarios use plain decimal strings, for which `parseFloat` is exact. -/
structure AOrder where
  orderHash : String
  srcChainId : ChainId
  dstChainId : ChainId
  srcToken : String
  dstToken : String
  srcAmount : ℚ
  dstAmount : ℚ
deriving DecidableEq, Repr

/-- `LiquidityStatus` record (src/dist/services/OrderMonitor.d.ts). -/
structure LiquidityStatus where
  hasSourceLiquidity : Bool
  hasDestinationLiquidity : Bool
  liquidityRatio : ℚ
  estimatedSlippage : ℚ
deriving DecidableEq, Repr

/-- Per-chain gas cost as returned by `estimateChainGasCost`. -/
structure ChainGasCost where
  gasUnits : ℕ
  gasPrice : String
  gasCostUsd : ℚ
deriving DecidableEq, Repr

/-- The `GasEstimate` record built by `estimateGasCosts`. -/
structure GasEstimate where
  sourceGasUnits : ℕ
  sourceGasPrice : String
  sourceGasUsd : ℚ
  destinationGasUnits : ℕ
  destinationGasPrice : String
  destinationGasUsd : ℚ
  claimGasUnits : ℕ
  claimGasUsd : ℚ
  totalGasUsd : ℚ
deriving DecidableEq, Repr

/-- The decision's `reason` field, one constructor per branch of
`getRejectReason` plus the success message and the catch-branch message
(the source interpolates the numbers into strings; the branch taken is what
the claims are about). -/
inductive Reason where
  | profitableOrder
  | insufficientProfit
  | lowMargin
  | insufficientDestinationLiquidity
  | unknownRejection
  | analysisError (msg : String)
deriving DecidableEq, Repr

/-- The `ResolverDecision` fields populated by `analyzeOrder` that the claims
talk about. -/
structure ResolverDecision where
  orderHash : String
  shouldFill : Bool
  reason : Reason
  expectedProfitUsd : ℚ
  profitMarginPercent : ℚ
  estimatedGasCost : ℚ
deriving DecidableEq, Repr

/-- `MIN_PROFIT_USD = 5`. -/
def MIN_PROFIT_USD : ℚ := 5

/-- `MIN_PROFIT_MARGIN = 0.5` (percent). -/
def MIN_PROFIT_MARGIN : ℚ := 1/2

/-- `estimateChainGasCost(chainId, operation)`: a Cosmos chain costs $0.5,
an EVM chain costs $2 for `escrow_claim` and $3 otherwise. -/
def estimateChainGasCost (chainId : ChainId) (operation : String) : ChainGasCost :=
  if chainId.isString then
    { gasUnits := 100000, gasPrice := "0.025uatom", gasCostUsd := 1/2 }
  else
    { gasUnits := if operation = "escrow_claim" then 150000 else 200000
      gasPrice := "20000000000"
      gasCostUsd := if operation = "escrow_claim" then 2 else 3 }

/-- `estimateGasCosts(order)` on the computing path: source lock, destination
lock and source claim via `estimateChainGasCost`.  (`estimateChainGasCost`
cannot fail, so the catch branch returning the fixed fallback estimate is
dead; the cache returns the same value it stored.) -/
def estimateGasCosts (order : AOrder) : GasEstimate :=
  let sourceGas := estimateChainGasCost order.srcChainId "escrow_lock"
  let destGas := estimateChainGasCost order.dstChainId "escrow_lock"
  let claimGas := estimateChainGasCost order.srcChainId "escrow_claim"
  { sourceGasUnits := sourceGas.gasUnits
    sourceGasPrice := sourceGas.gasPrice
    sourceGasUsd := sourceGas.gasCostUsd
    destinationGasUnits := destGas.gasUnits
    destinationGasPrice := destGas.gasPrice
    destinationGasUsd := destGas.gasCostUsd
    claimGasUnits := claimGas.gasUnits
    claimGasUsd := claimGas.gasCostUsd
    totalGasUsd := sourceGas.gasCostUsd + destGas.gasCostUsd + claimGas.gasCostUsd }

/-- `checkLiquidityAvailability(order)`: returns a constant record. -/
def checkLiquidityAvailability (_order : AOrder) : LiquidityStatus :=
  { hasSourceLiquidity := true
    hasDestinationLiquidity := true
    liquidityRatio := 6/5
    estimatedSlippage := 1/10 }

/-- `shouldFillOrder({netProfitUsd, profitMarginPercent, liquidityCheck})`. -/
def shouldFillOrder (netProfitUsd profitMarginPercent : ℚ)
    (liquidityCheck : LiquidityStatus) : Bool :=
  if netProfitUsd < MIN_PROFIT_USD then false
  else if profitMarginPercent < MIN_PROFIT_MARGIN then false
  else if !(liquidityCheck.hasSourceLiquidity && liquidityCheck.hasDestinationLiquidity) then false
  else true

/-- `getRejectReason(netProfitUsd, profitMarginPercent, liquidityCheck)`. -/
def getRejectReason (netProfitUsd profitMarginPercent : ℚ)
    (liquidityCheck : LiquidityStatus) : Reason :=
  if netProfitUsd < MIN_PROFIT_USD then .insufficientProfit
  else if profitMarginPercent < MIN_PROFIT_MARGIN then .lowMargin
  else if !liquidityCheck.hasDestinationLiquidity then .insufficientDestinationLiquidity
  else .unknownRejection

/-- The environment of one `analyzeOrder` call: the `priceUsd` results of the
two `getTokenPrice` calls (each degrades internally to the $1 fallback, so it
always yields a number), and `thrown`, a runtime exception raised anywhere in
the try block (`some msg`), which the catch branch handles. -/
structure AnalysisEnv where
  srcPriceUsd : ℚ
  dstPriceUsd : ℚ
  thrown : Option String
deriving DecidableEq, Repr

/-- The try-block body of `analyzeOrder` (lines 25-72). -/
def analyzeOrderBody (env : AnalysisEnv) (order : AOrder) : ResolverDecision :=
  let srcAmountUsd := order.srcAmount * env.srcPriceUsd
  let dstAmountUsd := order.dstAmount * env.dstPriceUsd
  let gasEstimate := estimateGasCosts order
  let totalGasCostUsd := gasEstimate.sourceGasUsd + gasEstimate.destinationGasUsd
  let grossProfitUsd := srcAmountUsd - dstAmountUsd
  let netProfitUsd := grossProfitUsd - totalGasCostUsd
  let profitMarginPercent := (netProfitUsd / srcAmountUsd) * 100
  let liquidityCheck := checkLiquidityAvailability order
  let shouldFill := shouldFillOrder netProfitUsd profitMarginPercent liquidityCheck
  { orderHash := order.orderHash
    shouldFill := shouldFill
    reason := if shouldFill then .profitableOrder
              else getRejectReason netProfitUsd profitMarginPercent liquidityCheck
    expectedProfitUsd := netProfitUsd
    profitMarginPercent := profitMarginPercent
    estimatedGasCost := totalGasCostUsd }

/-- `analyzeOrder(order)`: the try block on success, the catch branch (lines
74-86) on a thrown error — always a decision, never a propagated exception. -/
def analyzeOrder (env : AnalysisEnv) (order : AOrder) : ResolverDecision :=
  match env.thrown with
  | some msg =>
      { orderHash := order.orderHash
        shouldFill := false
        reason := .analysisError msg
        expectedProfitUsd := 0
        profitMarginPercent := 0
        estimatedGasCost := 0 }
  | none => analyzeOrderBody env order

/-- The spec scenario order: srcAmount "1.0" of token A on chain 1, dstAmount
"25.5" of token B on chain "cosmoshub-4". -/
def scenarioOrder : AOrder :=
  { orderHash := "0xorder1"
    srcChainId := .evm 1
    dstChainId := .cosmos "cosmoshub-4"
    srcToken := "0xA"
    dstToken := "uB"
    srcAmount := 1
    dstAmount := 51/2 }

/-- The spec scenario prices: source value $2500 (price 2500 for 1.0), and
destination value $2500 (price 2500/25.5 = 5000/51 for 25.5). -/
def scenarioEnv : AnalysisEnv :=
  { srcPriceUsd := 2500, dstPriceUsd := 5000/51, thrown := none }

end ProfitabilityAnalyzer

/-! ## Shared data model -/

/-- The seven-stage `TimeLocks` record (src/dist/services/OrderMonitor.d.ts,
src/src/resolver/types.ts), in epoch seconds. -/
structure Timelocks where
  srcWithdrawal : ℤ
  srcPublicWithdrawal : ℤ
  srcCancellation : ℤ
  srcPublicCancellation : ℤ
  dstWithdrawal : ℤ
  dstPublicWithdrawal : ℤ
  dstCancellation : ℤ
deriving DecidableEq, Repr

/-! ## OrderMonitor (src/dist/services/OrderMonitor.js, first module) -/

namespace OrderMonitor

/-- A submitted order as `validateOrder` sees it.  Every field the JS object
may lack is an `Option`; `none` models an absent field.  Chain ids carry the
string/number distinction through `ChainId`. -/
structure SubmittedOrder where
  orderHash : Option String
  maker : Option String
  srcChainId : Option ChainId
  dstChainId : Option ChainId
  srcToken : Option String
  dstToken : Option String
  srcAmount : Option String
  dstAmount : Option String
  deadline : Option ℤ
  secretHash : Option String
  signature : Option String
  timeLocks : Option Timelocks
deriving DecidableEq, Repr

/-- JavaScript falsiness of a string-valued field: absent, or the empty
string. -/
def strFalsy : Option String → Bool
  | none => true
  | some s => s = ""

/-- JavaScript falsiness of a numeric field: absent, or `0`. -/
def intFalsy : Option ℤ → Bool
  | none => true
  | some n => n = 0

/-- JavaScript falsiness of a chain-id field (number `0` or empty string). -/
def chainFalsy : Option ChainId → Bool
  | none => true
  | some (.evm n) => n = 0
  | some (.cosmos s) => s = ""

/-- The `required` field list of `validateOrder`, in source order, paired
with whether `!order[field]` holds. -/
def requiredChecks (o : SubmittedOrder) : List (String × Bool) :=
  [("orderHash", strFalsy o.orderHash),
   ("maker", strFalsy o.maker),
   ("srcChainId", chainFalsy o.srcChainId),
   ("dstChainId", chainFalsy o.dstChainId),
   ("srcToken", strFalsy o.srcToken),
   ("dstToken", strFalsy o.dstToken),
   ("srcAmount", strFalsy o.srcAmount),
   ("dstAmount", strFalsy o.dstAmount),
   ("deadline", intFalsy o.deadline),
   ("secretHash", strFalsy o.secretHash),
   ("signature", strFalsy o.signature)]

/-- `supportedChains = [1, 11155111, 56, 137, 'cosmoshub-4', 'osmosis-1']`. -/
def supportedChains : List ChainId :=
  [.evm 1, .evm 11155111, .evm 56, .evm 137, .cosmos "cosmoshub-4", .cosmos "osmosis-1"]

/-- `parseFloat(x) <= 0` where `none` models a `NaN` parse (every comparison
with `NaN` is false in JS). -/
def jsLeZero : Option ℚ → Bool
  | none => false
  | some v => decide (v ≤ 0)

/-- `validateOrder(order)` (lines 99-123): throws (modelled by `.error`) on
the first failed check, otherwise returns.  `parseFloatFn` is the JS
`parseFloat` on the amount strings (`none` for `NaN`); `now` is `Date.now()`.
No timelock field is inspected anywhere in the validation. -/
def validateOrder (parseFloatFn : String → Option ℚ) (now : ℤ)
    (o : SubmittedOrder) : Except String Unit :=
  match (requiredChecks o).find? (fun p => p.2) with
  | some p => .error ("Missing required field: " ++ p.1)
  | none =>
    if o.deadline.getD 0 ≤ now then
      .error "Order deadline has already passed"
    else if jsLeZero (parseFloatFn (o.srcAmount.getD "")) ||
            jsLeZero (parseFloatFn (o.dstAmount.getD "")) then
      .error "Invalid order amounts"
    else if !(supportedChains.contains (o.srcChainId.getD (.evm 0))) ||
            !(supportedChains.contains (o.dstChainId.getD (.evm 0))) then
      .error "Unsupported chain ID"
    else
      .ok ()

/-- `submitOrder(order)` (lines 79-98): validates and reports success; the
catch branch maps a validation error to `success: false`.  No chain action
is taken on either path. -/
def submitOrder (parseFloatFn : String → Option ℚ) (now : ℤ)
    (o : SubmittedOrder) : Bool :=
  match validateOrder parseFloatFn now o with
  | .ok _ => true
  | .error _ => false

end OrderMonitor

/-! ## EscrowExecutor (src/dist/services/OrderMonitor.js, second module) -/

namespace EscrowExecutor

/-- The result of `signAndBroadcast` on the Cosmos client. -/
structure BroadcastResult where
  code : ℕ
  transactionHash : String
  height : ℕ
  gasUsed : ℕ
deriving DecidableEq, Repr

/-- The `TransactionResult` record. -/
structure TransactionResult where
  hash : String
  chainId : String
  blockNumber : ℕ
  gasUsed : String
  status : String
deriving DecidableEq, Repr

/-- `isTransactionConfirmed(txHash, chain)` (lines 345-361).  `receipt`
models the outcome of `getTransactionReceipt` in the EVM branch: `none` for
a null receipt or a thrown RPC error (both yield `false`), `some ok` for a
receipt whose `status === 1` test is `ok`.  Every call outside the
`chain === 'source' && txHash.startsWith('0x')` branch returns `true`
without consulting the provider. -/
def isTransactionConfirmed (txHash chain : String) (receipt : Option Bool) : Bool :=
  if chain = "source" && txHash.startsWith "0x" then
    match receipt with
    | some statusOk => statusOk
    | none => false
  else
    true

/-- `lockCosmosEscrow(order, type)` (lines 249-283), from the broadcast
outcome on: a non-zero code throws, otherwise the returned record is marked
`status: 'confirmed'` immediately, with no confirmation poll.  (The message
construction from the order's amount/denom does not influence the returned
record and is elided.) -/
def lockCosmosEscrow (br : BroadcastResult) : Except String TransactionResult :=
  if br.code ≠ 0 then
    .error "Cosmos transaction failed"
  else
    .ok { hash := br.transactionHash
          chainId := "cosmoshub-4"
          blockNumber := br.height
          gasUsed := toString br.gasUsed
          status := "confirmed" }

end EscrowExecutor

/-! ## Swap orchestration (src/dist/resolver/CrossChainResolver.js) -/

namespace CrossChainResolver

/-- Observable chain-facing events of one `executeAtomicSwap` run:
submission of the two escrow locks, each confirmation poll with the pair of
`isTransactionConfirmed` results, the successful return of
`waitForEscrowConfirmations` (`bothConfirmed`), the claim submissions, and
the `handleFailedSwap`/`cancelEscrows` cleanup (`cancelRun`, plus one
event per escrow refund it actually submits). -/
inductive Ev where
  | lockSrc
  | lockDst
  | confirmPoll (srcConfirmed dstConfirmed : Bool)
  | bothConfirmed
  | claimSrc
  | claimDst
  | cancelRun
  | cancelSrcEscrow
  | cancelDstEscrow
deriving DecidableEq, Repr

/-- Final outcome of `executeAtomicSwap`: the try block ran to completion,
or the catch branch handled a failure. -/
inductive SwapResult where
  | completed
  | failed
deriving DecidableEq, Repr

/-- Environment of one `executeAtomicSwap` run: the chains of the order,
whether each chain call succeeds, and the `isTransactionConfirmed` result
pair returned at the i-th confirmation poll.  `maxPolls` is the bound the
5-minute timeout puts on the number of 5-second poll rounds. -/
structure SwapEnv where
  srcChainId : ChainId
  dstChainId : ChainId
  srcLockOk : Bool
  dstLockOk : Bool
  conf : ℕ → Bool × Bool
  maxPolls : ℕ
  claimOk : Bool

/-- `EscrowExecutor.cancelEscrows(order)` (lines 362-394): refunds the
source escrow only for a non-string (EVM) source chain id, the destination
escrow only for a non-string destination chain id; errors are swallowed. -/
def cancelEscrows (srcChainId dstChainId : ChainId) : List Ev :=
  Ev.cancelRun ::
    ((if srcChainId.isString then [] else [Ev.cancelSrcEscrow]) ++
     (if dstChainId.isString then [] else [Ev.cancelDstEscrow]))

/-- `waitForEscrowConfirmations` (lines 117-130): poll both confirmations,
return on the first round where both are true, fail once the bounded number
of rounds is exhausted.  Returns the poll events and whether it succeeded. -/
def waitForEscrowConfirmations (conf : ℕ → Bool × Bool) :
    ℕ → ℕ → List Ev × Bool
  | _, 0 => ([], false)
  | i, fuel + 1 =>
    let c := conf i
    if c.1 && c.2 then
      ([Ev.confirmPoll c.1 c.2, Ev.bothConfirmed], true)
    else
      let rest := waitForEscrowConfirmations conf (i + 1) fuel
      (Ev.confirmPoll c.1 c.2 :: rest.1, rest.2)

/-- `executeAtomicSwap(order, decision)` (lines 89-116): lock source, lock
destination, wait for both confirmations, then reveal the secret by claiming
from the source escrow (`revealSecretAndClaim` claims only the source side);
any failure falls to `handleFailedSwap`, which runs `cancelEscrows`. -/
def executeAtomicSwap (env : SwapEnv) : List Ev × SwapResult :=
  if !env.srcLockOk then
    (Ev.lockSrc :: cancelEscrows env.srcChainId env.dstChainId, .failed)
  else if !env.dstLockOk then
    (Ev.lockSrc :: Ev.lockDst :: cancelEscrows env.srcChainId env.dstChainId, .failed)
  else
    let w := waitForEscrowConfirmations env.conf 0 env.maxPolls
    if !w.2 then
      (Ev.lockSrc :: Ev.lockDst :: (w.1 ++ cancelEscrows env.srcChainId env.dstChainId), .failed)
    else if env.claimOk then
      (Ev.lockSrc :: Ev.lockDst :: (w.1 ++ [Ev.claimSrc]), .completed)
    else
      (Ev.lockSrc :: Ev.lockDst ::
        (w.1 ++ Ev.claimSrc :: cancelEscrows env.srcChainId env.dstChainId), .failed)

end CrossChainResolver

/-! ## Registry helpers (JavaScript `Map` semantics) -/

/-- `Map.prototype.set`: replace the value in place if the key exists,
append otherwise. -/
def mapSet {α : Type} (k : String) (v : α) :
    List (String × α) → List (String × α)
  | [] => [(k, v)]
  | (k', v') :: rest =>
    if k' = k then (k, v) :: rest else (k', v') :: mapSet k v rest

/-- `Map.prototype.delete`: drop every entry of the key (at most one when
keys are unique). -/
def mapDelete {α : Type} (k : String) (m : List (String × α)) :
    List (String × α) :=
  m.filter (fun e => !(e.1 = k : Bool))

/-! ## Resolver with swap tracking (src/resolver/resolver.ts, tracking
variant) and OrderMonitorService (src/service/orderMonitorService.ts) -/

namespace Resolver

/-- The `Immutables` record of `fillOrderArgs` (src/src/resolver/types.ts). -/
structure Immutables where
  orderHash : String
  hashlock : String
  maker : String
  taker : String
  token : String
  amount : String
  safetyDeposit : String
  timelocks : Timelocks
deriving DecidableEq, Repr

/-- The `fillOrderArgs` record; the order/signature/amount/args components
are opaque pass-through payload for `deploySrc`. -/
structure FillOrderArgs where
  immutables : Immutables
  payload : String
deriving DecidableEq, Repr

/-- The `Swap` tracking record built by `processOrders`. -/
structure Swap where
  immutables : Immutables
  srcEscrow : String
  dstEscrow : String
  chainId : ChainId
  status : String
  createdAt : ℤ
deriving DecidableEq, Repr

/-- Chain actions issued by `Resolver.processOrders`. -/
inductive RAct where
  | deploySrc (args : FillOrderArgs)
deriving DecidableEq, Repr

/-- Actions issued by `Resolver.checkAndHandleTimeout`: the per-swap
source/destination cancellation calls (the hashlock tags the loop entry the
call was issued for; the stub methods themselves take no parameters). -/
inductive TAct where
  | cancelSource (hashlock : String)
  | cancelDestination (hashlock : String)
deriving DecidableEq, Repr

/-- `addSwapOrder(swap)` (lines 200-203): `activeSwaps.set(hashlock, swap)`
— an unconditional `Map.set`, with no insert-if-absent guard. -/
def addSwapOrder (swap : Swap) (activeSwaps : List (String × Swap)) :
    List (String × Swap) :=
  mapSet swap.immutables.hashlock swap activeSwaps

/-- `removeSwapFromTracking(hashlock)` (lines 205-208). -/
def removeSwapFromTracking (hashlock : String)
    (activeSwaps : List (String × Swap)) : List (String × Swap) :=
  mapDelete hashlock activeSwaps

/-- `processOrders(orderArgs, chainId)` (lines 93-113): deploy the source
escrow via `createSrcEscrow`, then track the swap via `addSwapOrder`.  (The
`SrcEscrowCreated` listener registration mutates no resolver state and is
elided.)  Returns the chain actions issued and the new `activeSwaps`. -/
def processOrders (orderArgs : FillOrderArgs) (chainId : ChainId) (now : ℤ)
    (activeSwaps : List (String × Swap)) :
    List RAct × List (String × Swap) :=
  ([RAct.deploySrc orderArgs],
   addSwapOrder
     { immutables := orderArgs.immutables
       srcEscrow := ""
       dstEscrow := ""
       chainId := chainId
       status := "active"
       createdAt := now }
     activeSwaps)

/-- `checkAndHandleTimeout()` (lines 115-142), one supervisor tick at time
`now` (seconds): for every tracked swap, if `now > srcCancellation` cancel
on the source chain and remove the swap; if `now > dstCancellation` cancel
on the destination chain and remove the swap.  Removing an entry only
affects its own key, so the surviving map is the filter of the untouched
entries; the actions are each entry's fired branches in loop order. -/
def checkAndHandleTimeout (now : ℤ) (activeSwaps : List (String × Swap)) :
    List TAct × List (String × Swap) :=
  (activeSwaps.flatMap (fun e =>
      (if e.2.immutables.timelocks.srcCancellation < now
       then [TAct.cancelSource e.1] else []) ++
      (if e.2.immutables.timelocks.dstCancellation < now
       then [TAct.cancelDestination e.1] else [])),
   activeSwaps.filter (fun e =>
      !decide (e.2.immutables.timelocks.srcCancellation < now) &&
      !decide (e.2.immutables.timelocks.dstCancellation < now)))

end Resolver

/-! ## CrossChainResolver order intake (processNewOrders, lines 55-88) -/

namespace CrossChainResolver

/-- Per-order environment for `analyzeAndExecuteOrder`: the analysis
environment and, should the order be filled, the swap-execution
environment. -/
structure OrderEnv where
  analysis : ProfitabilityAnalyzer.AnalysisEnv
  swap : SwapEnv

/-- Actions of the intake loop: the profitability analysis of an order and
the chain events of an executed swap. -/
inductive CCAct where
  | analyze (orderHash : String)
  | swapEv (e : Ev)
deriving DecidableEq, Repr

/-- The mutable resolver state touched by `processNewOrders`:
`processedOrders` (a `Set` of order hashes, in insertion order) and
`activeOrders` (a `Map` from order hash to order). -/
structure CCState where
  processedOrders : List String
  activeOrders : List (String × ProfitabilityAnalyzer.AOrder)
deriving DecidableEq

/-- `analyzeAndExecuteOrder(order)` (lines 66-88): analyze; on a rejecting
decision return with no chain action; otherwise insert into `activeOrders`,
run `executeAtomicSwap` and delete from `activeOrders` (both the success
path, line 108, and the failure path, line 114, delete the entry). -/
def analyzeAndExecuteOrder (env : OrderEnv)
    (order : ProfitabilityAnalyzer.AOrder) (st : CCState) :
    CCState × List CCAct :=
  let decision := ProfitabilityAnalyzer.analyzeOrder env.analysis order
  if !decision.shouldFill then
    (st, [CCAct.analyze order.orderHash])
  else
    let stActive :=
      { st with activeOrders := mapSet order.orderHash order st.activeOrders }
    let run := executeAtomicSwap env.swap
    ({ stActive with
        activeOrders := mapDelete order.orderHash stActive.activeOrders },
     CCAct.analyze order.orderHash :: run.1.map CCAct.swapEv)

/-- One iteration of the `processNewOrders` loop (lines 57-64): an order
already in `processedOrders` is skipped outright; otherwise it is analyzed
and possibly executed, then its hash is added to `processedOrders`. -/
def processOrderStep (envOf : ProfitabilityAnalyzer.AOrder → OrderEnv)
    (acc : CCState × List CCAct) (order : ProfitabilityAnalyzer.AOrder) :
    CCState × List CCAct :=
  if order.orderHash ∈ acc.1.processedOrders then acc
  else
    let r := analyzeAndExecuteOrder (envOf order) order acc.1
    ({ r.1 with processedOrders := r.1.processedOrders ++ [order.orderHash] },
     acc.2 ++ r.2)

/-- `processNewOrders()` (lines 55-65) on one fetched batch of orders. -/
def processNewOrders (envOf : ProfitabilityAnalyzer.AOrder → OrderEnv)
    (orders : List ProfitabilityAnalyzer.AOrder) (st : CCState) :
    CCState × List CCAct :=
  orders.foldl (processOrderStep envOf) (st, [])

end CrossChainResolver

/-! ## Helper lemmas -/

open CrossChainResolver in
theorem claimSrc_not_mem_cancelEscrows (a b : ChainId) :
    Ev.claimSrc ∉ cancelEscrows a b := by
  unfold cancelEscrows
  split_ifs <;> simp

open CrossChainResolver in
theorem claimDst_not_mem_cancelEscrows (a b : ChainId) :
    Ev.claimDst ∉ cancelEscrows a b := by
  unfold cancelEscrows
  split_ifs <;> simp

open CrossChainResolver in
theorem claimSrc_not_mem_wait (conf : ℕ → Bool × Bool) :
    ∀ (fuel i : ℕ), Ev.claimSrc ∉ (waitForEscrowConfirmations conf i fuel).1 := by
  intro fuel
  induction fuel with
  | zero => intro i; simp [waitForEscrowConfirmations]
  | succ n ih =>
    intro i
    unfold waitForEscrowConfirmations
    dsimp only
    split_ifs <;> simp_all

open CrossChainResolver in
theorem claimDst_not_mem_wait (conf : ℕ → Bool × Bool) :
    ∀ (fuel i : ℕ), Ev.claimDst ∉ (waitForEscrowConfirmations conf i fuel).1 := by
  intro fuel
  induction fuel with
  | zero => intro i; simp [waitForEscrowConfirmations]
  | succ n ih =>
    intro i
    unfold waitForEscrowConfirmations
    dsimp only
    split_ifs <;> simp_all

open CrossChainResolver in
theorem wait_success_suffix (conf : ℕ → Bool × Bool) :
    ∀ (fuel i : ℕ), (waitForEscrowConfirmations conf i fuel).2 = true →
      ∃ p, (waitForEscrowConfirmations conf i fuel).1 = p ++ [Ev.bothConfirmed] := by
  intro fuel
  induction fuel with
  | zero => intro i h; simp [waitForEscrowConfirmations] at h
  | succ n ih =>
    intro i h
    unfold waitForEscrowConfirmations at h ⊢
    dsimp only at h ⊢
    split_ifs at h ⊢ with hc
    · exact ⟨[Ev.confirmPoll (conf i).1 (conf i).2], rfl⟩
    · obtain ⟨p, hp⟩ := ih (i + 1) h
      exact ⟨Ev.confirmPoll (conf i).1 (conf i).2 :: p, by simp [hp]⟩

theorem keys_mapSet {α : Type} (k : String) (v : α) :
    ∀ (m : List (String × α)),
      (mapSet k v m).map Prod.fst =
        if k ∈ m.map Prod.fst then m.map Prod.fst else m.map Prod.fst ++ [k] := by
  intro m
  induction m with
  | nil => simp [mapSet]
  | cons e rest ih =>
    obtain ⟨a, b⟩ := e
    by_cases he : a = k
    · subst he
      simp [mapSet]
    · simp only [mapSet, if_neg he, List.map_cons]
      rw [ih]
      by_cases hk : k ∈ rest.map Prod.fst
      · simp [hk, Ne.symm he]
      · simp [hk, Ne.symm he]

theorem mapSet_keys_nodup {α : Type} (k : String) (v : α)
    (m : List (String × α)) (hn : (m.map Prod.fst).Nodup) :
    ((mapSet k v m).map Prod.fst).Nodup := by
  rw [keys_mapSet]
  by_cases hk : k ∈ m.map Prod.fst
  · simpa [hk] using hn
  · simp [hk, List.nodup_append, hn]

theorem eq_of_keyNodup_mem {α : Type} :
    ∀ (m : List (String × α)), (m.map Prod.fst).Nodup →
      ∀ (k : String) (a b : α), (k, a) ∈ m → (k, b) ∈ m → a = b := by
  intro m
  induction m with
  | nil => intro _ k a b ha _; cases ha
  | cons e rest ih =>
    obtain ⟨e1, e2⟩ := e
    intro hn k a b ha hb
    rw [List.map_cons, List.nodup_cons] at hn
    rcases List.mem_cons.mp ha with ha' | ha' <;>
      rcases List.mem_cons.mp hb with hb' | hb'
    · injection ha' with hk1 ha2
      injection hb' with hk2 hb2
      rw [ha2, hb2]
    · injection ha' with hk1 ha2
      have hmem : k ∈ List.map Prod.fst rest := List.mem_map_of_mem Prod.fst hb'
      rw [hk1] at hmem
      exact absurd hmem hn.1
    · injection hb' with hk2 hb2
      have hmem : k ∈ List.map Prod.fst rest := List.mem_map_of_mem Prod.fst ha'
      rw [hk2] at hmem
      exact absurd hmem hn.1
    · exact ih hn.2 k a b ha' hb'

open CrossChainResolver in
theorem analyzeAndExecuteOrder_keeps_processed
    (env : OrderEnv) (o : ProfitabilityAnalyzer.AOrder) (st : CCState) :
    (analyzeAndExecuteOrder env o st).1.processedOrders = st.processedOrders := by
  unfold analyzeAndExecuteOrder
  dsimp only
  split_ifs <;> rfl

open CrossChainResolver in
theorem processOrderStep_skips_processed
    (envOf : ProfitabilityAnalyzer.AOrder → OrderEnv)
    (acc : CCState × List CCAct) (o : ProfitabilityAnalyzer.AOrder)
    (h : o.orderHash ∈ acc.1.processedOrders) :
    processOrderStep envOf acc o = acc := by
  unfold processOrderStep
  exact if_pos h

open CrossChainResolver in
theorem mem_processed_processOrderStep
    (envOf : ProfitabilityAnalyzer.AOrder → OrderEnv)
    (acc : CCState × List CCAct) (o : ProfitabilityAnalyzer.AOrder) :
    o.orderHash ∈ (processOrderStep envOf acc o).1.processedOrders := by
  unfold processOrderStep
  split_ifs with h
  · exact h
  · dsimp only
    rw [analyzeAndExecuteOrder_keeps_processed]
    exact List.mem_append_right _ (List.mem_singleton.mpr rfl)

/-! ## Shared concrete inputs for witnesses and counterexamples -/

open CrossChainResolver in
/-- A fully succeeding swap environment: both locks succeed, the first
confirmation poll reports both escrows confirmed, the claim succeeds. -/
def envAllOk : SwapEnv :=
  { srcChainId := .evm 11155111
    dstChainId := .cosmos "cosmoshub-4"
    srcLockOk := true
    dstLockOk := true
    conf := fun _ => (true, true)
    maxPolls := 60
    claimOk := true }

/-- Timelocks with the destination cancellation before the source
cancellation (the ordering the spec calls safe): `srcCancellation = T+7200`,
`dstCancellation = T+3600` for `T = 0`. -/
def timelocksGoodC5 : Timelocks :=
  { srcWithdrawal := 300, srcPublicWithdrawal := 600, srcCancellation := 7200,
    srcPublicCancellation := 7800, dstWithdrawal := 300, dstPublicWithdrawal := 600,
    dstCancellation := 3600 }

/-- Timelocks with the destination cancellation after the source
cancellation: `srcCancellation = T+3600`, `dstCancellation = T+7200` for
`T = 0` — the ordering the spec says must fail validation. -/
def timelocksBadC5 : Timelocks :=
  { srcWithdrawal := 300, srcPublicWithdrawal := 600, srcCancellation := 3600,
    srcPublicCancellation := 4000, dstWithdrawal := 300, dstPublicWithdrawal := 600,
    dstCancellation := 7200 }

/-- A concrete `Immutables` record with hashlock `0xhl` and the safe
timelock ordering. -/
def immutablesW : Resolver.Immutables :=
  { orderHash := "0xorder1", hashlock := "0xhl", maker := "0xmaker",
    taker := "0xtaker", token := "0xtoken", amount := "1000",
    safetyDeposit := "10", timelocks := timelocksGoodC5 }

/-- A concrete tracked swap record for `0xhl`. -/
def swapTrackW : Resolver.Swap :=
  { immutables := immutablesW, srcEscrow := "", dstEscrow := "",
    chainId := .evm 11155111, status := "active", createdAt := 0 }

/-- Concrete `fillOrderArgs` for the `0xhl` swap. -/
def argsC4 : Resolver.FillOrderArgs :=
  { immutables := immutablesW, payload := "order-signature-amount-args" }

/-! ## Claim C1 -/

open ProfitabilityAnalyzer in
/-- Reusable characterization of `shouldFillOrder` when the liquidity flags
are both set. -/
theorem shouldFillOrder_eq_true_iff (net margin : ℚ) (liq : LiquidityStatus)
    (hs : liq.hasSourceLiquidity = true) (hd : liq.hasDestinationLiquidity = true) :
    shouldFillOrder net margin liq = true ↔
      MIN_PROFIT_USD ≤ net ∧ MIN_PROFIT_MARGIN ≤ margin := by
  unfold shouldFillOrder
  rw [hs, hd]
  split_ifs with h1 h2 h3
  · simp [not_le.mpr h1]
  · simp [not_le.mpr h2]
  · simp at h3
  · simp [not_lt.mp h1, not_lt.mp h2]

open ProfitabilityAnalyzer in
/-- C1, counterexample: at the spec's own scenario (source value $2500,
destination value $2500, three-operation gas estimate $5.50) the decision's
expected net profit does NOT equal source value minus destination value
minus the total fees of all three operations: `analyzeOrder` subtracts only
the source-lock and destination-lock fees (line 36), yielding −$3.50, not
−$5.50. -/
theorem c1_counterexample :
    ¬ ((analyzeOrder scenarioEnv scenarioOrder).expectedProfitUsd =
        scenarioOrder.srcAmount * scenarioEnv.srcPriceUsd -
        scenarioOrder.dstAmount * scenarioEnv.dstPriceUsd -
        (estimateGasCosts scenarioOrder).totalGasUsd) := by
  simp [analyzeOrder, analyzeOrderBody, estimateGasCosts, estimateChainGasCost,
    scenarioEnv, scenarioOrder, ChainId.isString]

open ProfitabilityAnalyzer in
/-- C1, amended: for every order whose evaluation does not throw and whose
source leg has positive USD value, the expected net profit equals the USD
source value minus the USD destination value minus the fees of the
source-lock and destination-lock operations only (the claim-operation fee is
estimated but not subtracted); the margin (in percent) equals net profit
over source value times 100; and `shouldFill` holds iff net profit reaches
$5, margin reaches 0.5%, and the liquidity flags hold.  At the spec
scenario the net profit is −$3.50 and the decision is a rejection with the
insufficient-profit reason. -/
theorem c1_net_profit_margin_decision :
    (∀ (env : AnalysisEnv) (o : AOrder),
      env.thrown = none →
      0 < o.srcAmount * env.srcPriceUsd →
      (analyzeOrder env o).expectedProfitUsd =
        o.srcAmount * env.srcPriceUsd - o.dstAmount * env.dstPriceUsd -
          ((estimateGasCosts o).sourceGasUsd + (estimateGasCosts o).destinationGasUsd) ∧
      (analyzeOrder env o).profitMarginPercent =
        ((analyzeOrder env o).expectedProfitUsd / (o.srcAmount * env.srcPriceUsd)) * 100 ∧
      ((analyzeOrder env o).shouldFill = true ↔
        MIN_PROFIT_USD ≤ (analyzeOrder env o).expectedProfitUsd ∧
        MIN_PROFIT_MARGIN ≤ (analyzeOrder env o).profitMarginPercent ∧
        (checkLiquidityAvailability o).hasSourceLiquidity = true ∧
        (checkLiquidityAvailability o).hasDestinationLiquidity = true)) ∧
    ((analyzeOrder scenarioEnv scenarioOrder).expectedProfitUsd = -(7/2) ∧
     (analyzeOrder scenarioEnv scenarioOrder).shouldFill = false ∧
     (analyzeOrder scenarioEnv scenarioOrder).reason = .insufficientProfit) := by
  constructor
  · intro env o hthrown hpos
    have hbody : analyzeOrder env o = analyzeOrderBody env o := by
      simp [analyzeOrder, hthrown]
    rw [hbody]
    unfold analyzeOrderBody
    dsimp only
    refine ⟨rfl, rfl, ?_⟩
    rw [shouldFillOrder_eq_true_iff _ _ _ rfl rfl]
    simp [checkLiquidityAvailability]
  · refine ⟨?_, ?_, ?_⟩ <;>
    · simp [analyzeOrder, analyzeOrderBody, estimateGasCosts, estimateChainGasCost,
        scenarioEnv, scenarioOrder, ChainId.isString, shouldFillOrder, getRejectReason,
        checkLiquidityAvailability, MIN_PROFIT_USD, MIN_PROFIT_MARGIN]
      norm_num

open ProfitabilityAnalyzer in
/-- C1, witness: the amended theorem applied to the spec scenario. -/
theorem c1_witness :
    scenarioEnv.thrown = none ∧
    0 < scenarioOrder.srcAmount * scenarioEnv.srcPriceUsd ∧
    (analyzeOrder scenarioEnv scenarioOrder).expectedProfitUsd =
      scenarioOrder.srcAmount * scenarioEnv.srcPriceUsd -
      scenarioOrder.dstAmount * scenarioEnv.dstPriceUsd -
        ((estimateGasCosts scenarioOrder).sourceGasUsd +
         (estimateGasCosts scenarioOrder).destinationGasUsd) :=
  ⟨rfl, by norm_num [scenarioOrder, scenarioEnv],
   (c1_net_profit_margin_decision.1 scenarioEnv scenarioOrder rfl
     (by norm_num [scenarioOrder, scenarioEnv])).1⟩

/-! ## Claim C2 -/

open CrossChainResolver in
/-- C2: in every run of `executeAtomicSwap`, the source-escrow claim (the
secret reveal) appears in the trace only when the trace starts with the
source lock submission followed by the destination lock submission, and a
successful confirmation wait (`bothConfirmed`) precedes the claim
immediately after the polls; and no destination-side claim is ever issued
by the resolver. -/
theorem c2_claim_only_after_confirmed_locks :
    ∀ (env : SwapEnv),
      (Ev.claimSrc ∈ (executeAtomicSwap env).1 →
        ∃ p s, (executeAtomicSwap env).1 =
          Ev.lockSrc :: Ev.lockDst :: (p ++ Ev.bothConfirmed :: Ev.claimSrc :: s)) ∧
      Ev.claimDst ∉ (executeAtomicSwap env).1 := by
  intro env
  unfold executeAtomicSwap
  dsimp only
  split_ifs with h1 h2 h3 h4
  · constructor
    · intro hmem
      simp at hmem
      exact absurd hmem (claimSrc_not_mem_cancelEscrows _ _)
    · simp [claimDst_not_mem_cancelEscrows env.srcChainId env.dstChainId]
  · constructor
    · intro hmem
      simp at hmem
      exact absurd hmem (claimSrc_not_mem_cancelEscrows _ _)
    · simp [claimDst_not_mem_cancelEscrows env.srcChainId env.dstChainId]
  · constructor
    · intro hmem
      simp [claimSrc_not_mem_wait] at hmem
      exact absurd hmem (claimSrc_not_mem_cancelEscrows _ _)
    · simp [claimDst_not_mem_wait,
        claimDst_not_mem_cancelEscrows env.srcChainId env.dstChainId]
  · have hsuc : (waitForEscrowConfirmations env.conf 0 env.maxPolls).2 = true := by
      simpa using h3
    obtain ⟨p, hp⟩ := wait_success_suffix env.conf env.maxPolls 0 hsuc
    constructor
    · intro _
      exact ⟨p, [], by simp [hp]⟩
    · simp [claimDst_not_mem_wait]
  · have hsuc : (waitForEscrowConfirmations env.conf 0 env.maxPolls).2 = true := by
      simpa using h3
    obtain ⟨p, hp⟩ := wait_success_suffix env.conf env.maxPolls 0 hsuc
    constructor
    · intro _
      refine ⟨p, cancelEscrows env.srcChainId env.dstChainId, ?_⟩
      simp [hp]
    · simp [claimDst_not_mem_wait,
        claimDst_not_mem_cancelEscrows env.srcChainId env.dstChainId]

open CrossChainResolver in
/-- C2, witness: in the all-success environment the claim occurs and the
theorem yields the trace decomposition. -/
theorem c2_witness :
    Ev.claimSrc ∈ (executeAtomicSwap envAllOk).1 ∧
    (∃ p s, (executeAtomicSwap envAllOk).1 =
      Ev.lockSrc :: Ev.lockDst :: (p ++ Ev.bothConfirmed :: Ev.claimSrc :: s)) :=
  ⟨by decide, (c2_claim_only_after_confirmed_locks envAllOk).1 (by decide)⟩

/-! ## Claim C3 -/

open CrossChainResolver in
/-- The partial-failure environment with a Cosmos source chain: the source
lock succeeds and the destination lock fails. -/
def envC3cx : SwapEnv :=
  { srcChainId := .cosmos "cosmoshub-4"
    dstChainId := .evm 1
    srcLockOk := true
    dstLockOk := false
    conf := fun _ => (true, true)
    maxPolls := 60
    claimOk := true }

open CrossChainResolver in
/-- C3, counterexample: with a Cosmos source chain, when the source lock
succeeds and the destination lock fails, `cancelEscrows` issues NO refund of
the source escrow (it only refunds EVM escrows), so the claim's "reclaims
(refunds) the source escrow" fails at this input. -/
theorem c3_counterexample :
    envC3cx.srcLockOk = true ∧ envC3cx.dstLockOk = false ∧
    Ev.cancelSrcEscrow ∉ (executeAtomicSwap envC3cx).1 ∧
    (executeAtomicSwap envC3cx).2 = .failed := by
  refine ⟨rfl, rfl, ?_, rfl⟩
  decide

open CrossChainResolver in
/-- C3, amended: whenever the source lock succeeds and the destination lock
fails, the orchestrator takes the `handleFailedSwap`/`cancelEscrows`
cancellation path and the swap never completes; the source escrow refund is
issued on that path only when the source chain is an EVM (non-string) chain
— a Cosmos-source escrow is not refunded. -/
theorem c3_partial_failure_cancellation :
    ∀ (env : SwapEnv), env.srcLockOk = true → env.dstLockOk = false →
      (executeAtomicSwap env).2 = .failed ∧
      Ev.cancelRun ∈ (executeAtomicSwap env).1 ∧
      (env.srcChainId.isString = false →
        Ev.cancelSrcEscrow ∈ (executeAtomicSwap env).1) := by
  intro env hsrc hdst
  unfold executeAtomicSwap
  simp only [hsrc, hdst]
  refine ⟨rfl, ?_, ?_⟩
  · simp [cancelEscrows]
  · intro hevm
    simp [cancelEscrows, hevm]

open CrossChainResolver in
/-- The partial-failure environment with an EVM source chain. -/
def envC3W : SwapEnv :=
  { srcChainId := .evm 11155111
    dstChainId := .cosmos "cosmoshub-4"
    srcLockOk := true
    dstLockOk := false
    conf := fun _ => (true, true)
    maxPolls := 60
    claimOk := true }

open CrossChainResolver in
/-- C3, witness: the amended theorem applied to the EVM-source
partial-failure environment. -/
theorem c3_witness :
    envC3W.srcLockOk = true ∧ envC3W.dstLockOk = false ∧
    ((executeAtomicSwap envC3W).2 = .failed ∧
     Ev.cancelRun ∈ (executeAtomicSwap envC3W).1 ∧
     (envC3W.srcChainId.isString = false →
       Ev.cancelSrcEscrow ∈ (executeAtomicSwap envC3W).1)) :=
  ⟨rfl, rfl, c3_partial_failure_cancellation envC3W rfl rfl⟩

/-! ## Claim C4 -/

/-- C4, counterexample: admitting the same `fillOrderArgs` (same hashlock)
twice through `Resolver.processOrders` is not a no-op — the second call
issues the source-escrow deployment again and replaces the tracked record
(here the `createdAt` of the second admission differs). -/
theorem c4_counterexample :
    (Resolver.processOrders argsC4 (.evm 11155111) 200
        (Resolver.processOrders argsC4 (.evm 11155111) 100 []).2).1 ≠ [] ∧
    (Resolver.processOrders argsC4 (.evm 11155111) 200
        (Resolver.processOrders argsC4 (.evm 11155111) 100 []).2).2 ≠
      (Resolver.processOrders argsC4 (.evm 11155111) 100 []).2 := by
  decide

open CrossChainResolver in
/-- C4, amended: the tracking maps hold at most one record per key (an
unconditional `Map.set` preserves key uniqueness), and in
`CrossChainResolver.processNewOrders` a re-fetched order whose hash is
already in `processedOrders` is skipped with no state change and no action —
a duplicate inside one batch is likewise processed only once; but (per the
counterexample) `Resolver.processOrders` re-deploys the source escrow and
replaces the tracked record on a second admission of the same hashlock. -/
theorem c4_admission_idempotence :
    (∀ (k : String) (v : Resolver.Swap) (m : List (String × Resolver.Swap)),
        (m.map Prod.fst).Nodup → ((mapSet k v m).map Prod.fst).Nodup) ∧
    (∀ (envOf : ProfitabilityAnalyzer.AOrder → OrderEnv)
        (o : ProfitabilityAnalyzer.AOrder) (st : CCState),
        o.orderHash ∈ st.processedOrders →
        processNewOrders envOf [o] st = (st, [])) ∧
    (∀ (envOf : ProfitabilityAnalyzer.AOrder → OrderEnv)
        (o : ProfitabilityAnalyzer.AOrder) (st : CCState),
        processNewOrders envOf [o, o] st = processNewOrders envOf [o] st) := by
  refine ⟨fun k v m hn => mapSet_keys_nodup k v m hn, ?_, ?_⟩
  · intro envOf o st hmem
    simp only [processNewOrders, List.foldl_cons, List.foldl_nil]
    exact processOrderStep_skips_processed envOf (st, []) o hmem
  · intro envOf o st
    simp only [processNewOrders, List.foldl_cons, List.foldl_nil]
    exact processOrderStep_skips_processed envOf _ o
      (mem_processed_processOrderStep envOf (st, []) o)

open CrossChainResolver in
/-- The resolver state with the scenario order hash already processed. -/
def stC4W : CCState :=
  { processedOrders := ["0xorder1"], activeOrders := [] }

open CrossChainResolver in
/-- A per-order environment mapping every order to the scenario analysis
environment and the all-success swap environment. -/
def envOfC4W : ProfitabilityAnalyzer.AOrder → OrderEnv :=
  fun _ => { analysis := ProfitabilityAnalyzer.scenarioEnv, swap := envAllOk }

open CrossChainResolver in
/-- C4, witness: the amended theorem applied to a one-entry map and to a
state that has already processed the scenario order. -/
theorem c4_witness :
    (([("0xhl", swapTrackW)].map Prod.fst).Nodup ∧
     ((mapSet "0xhl2" swapTrackW [("0xhl", swapTrackW)]).map Prod.fst).Nodup) ∧
    (ProfitabilityAnalyzer.scenarioOrder.orderHash ∈ stC4W.processedOrders ∧
     processNewOrders envOfC4W [ProfitabilityAnalyzer.scenarioOrder] stC4W =
       (stC4W, [])) :=
  ⟨⟨by decide, c4_admission_idempotence.1 "0xhl2" swapTrackW _ (by decide)⟩,
   ⟨by decide,
    c4_admission_idempotence.2.1 envOfC4W ProfitabilityAnalyzer.scenarioOrder stC4W
      (by decide)⟩⟩

/-! ## Claim C5 -/

/-- The JS `parseFloat` restricted to the amount strings in play. -/
def parseFnC5 : String → Option ℚ := fun s =>
  if s = "1.0" then some 1 else if s = "25.5" then some (51/2) else none

open OrderMonitor in
/-- The order whose timelocks violate the required ordering
(`srcCancellation = T+3600` before `dstCancellation = T+7200`), all other
fields valid. -/
def orderBadC5 : SubmittedOrder :=
  { orderHash := some "0xorder1", maker := some "0xmaker", srcChainId := some (.evm 1),
    dstChainId := some (.cosmos "cosmoshub-4"), srcToken := some "0xA",
    dstToken := some "uB", srcAmount := some "1.0", dstAmount := some "25.5",
    deadline := some 3600000, secretHash := some "0xsecret", signature := some "0xsig",
    timeLocks := some timelocksBadC5 }

open OrderMonitor in
/-- The same order with the safe timelock ordering. -/
def orderGoodC5 : SubmittedOrder :=
  { orderBadC5 with timeLocks := some timelocksGoodC5 }

open OrderMonitor in
/-- C5: the submission validation accepts BOTH timelock orderings — no code
path inspects `timeLocks`, so the order the spec says "must fail validation
at swap creation" (`srcCancellation` strictly before `dstCancellation`)
passes validation exactly like the safe one. -/
theorem c5_timelock_validation_absent :
    timelocksBadC5.srcCancellation < timelocksBadC5.dstCancellation ∧
    validateOrder parseFnC5 0 orderBadC5 = .ok () ∧
    validateOrder parseFnC5 0 orderGoodC5 = .ok () := by
  refine ⟨by norm_num [timelocksBadC5], ?_, ?_⟩ <;>
    simp [validateOrder, requiredChecks, strFalsy, intFalsy, chainFalsy, jsLeZero,
      supportedChains, orderBadC5, orderGoodC5, parseFnC5]

/-! ## Claim C6 -/

open Resolver in
/-- C6: one tick of `checkAndHandleTimeout` at a time past a tracked swap's
`dstCancellation` issues the destination-chain cancellation for that swap
and removes it from `activeSwaps` (the single supervisor tick the
`OrderMonitorService.start` interval fires). -/
theorem c6_timeout_tick_removes_swap :
    ∀ (now : ℤ) (m : List (String × Swap)) (hk : String) (s : Swap),
      (m.map Prod.fst).Nodup → (hk, s) ∈ m →
      s.immutables.timelocks.dstCancellation < now →
      hk ∉ ((checkAndHandleTimeout now m).2.map Prod.fst) ∧
      TAct.cancelDestination hk ∈ (checkAndHandleTimeout now m).1 := by
  intro now m hk s hn hm hd
  constructor
  · intro hmem
    rw [List.mem_map] at hmem
    obtain ⟨e, he, hke⟩ := hmem
    unfold checkAndHandleTimeout at he
    rw [List.mem_filter] at he
    obtain ⟨e1, e2⟩ := e
    dsimp at hke
    subst hke
    have he2 : e2 = s := eq_of_keyNodup_mem m hn e1 e2 s he.1 hm
    subst he2
    simp [hd] at he
  · unfold checkAndHandleTimeout
    rw [List.mem_flatMap]
    refine ⟨(hk, s), hm, ?_⟩
    simp [hd]

open Resolver in
/-- C6, witness: a single tracked swap whose `dstCancellation` (T+3600) is
past at `now = 4000` is removed and its destination-leg cancellation
issued. -/
theorem c6_witness :
    ([("0xhl", swapTrackW)].map Prod.fst).Nodup ∧
    ("0xhl", swapTrackW) ∈ [("0xhl", swapTrackW)] ∧
    swapTrackW.immutables.timelocks.dstCancellation < 4000 ∧
    ("0xhl" ∉ ((checkAndHandleTimeout 4000 [("0xhl", swapTrackW)]).2.map Prod.fst) ∧
     TAct.cancelDestination "0xhl" ∈
       (checkAndHandleTimeout 4000 [("0xhl", swapTrackW)]).1) :=
  ⟨by decide, by decide, by decide,
   c6_timeout_tick_removes_swap 4000 [("0xhl", swapTrackW)] "0xhl" swapTrackW
     (by decide) (by decide) (by decide)⟩

/-! ## Claim C7 -/

open EscrowExecutor in
/-- C7: `isTransactionConfirmed` returns `true` for every call whose chain
argument is not `'source'` or whose hash does not start with `'0x'`,
independently of any provider response; and a successfully broadcast
`lockCosmosEscrow` result is marked `status: 'confirmed'` immediately. -/
theorem c7_destination_confirmation_constant :
    (∀ (txHash chain : String) (receipt : Option Bool),
        ¬(chain = "source" ∧ txHash.startsWith "0x" = true) →
        isTransactionConfirmed txHash chain receipt = true) ∧
    (∀ (br : BroadcastResult) (r : TransactionResult),
        lockCosmosEscrow br = .ok r → r.status = "confirmed") := by
  constructor
  · intro txHash chain receipt h
    unfold isTransactionConfirmed
    rw [if_neg]
    intro hb
    rw [Bool.and_eq_true] at hb
    exact h ⟨by simpa using hb.1, hb.2⟩
  · intro br r h
    unfold lockCosmosEscrow at h
    split_ifs at h
    cases h
    rfl

open EscrowExecutor in
/-- A successful Cosmos broadcast result. -/
def brC7W : BroadcastResult :=
  { code := 0, transactionHash := "F0A1B2", height := 12345, gasUsed := 98765 }

open EscrowExecutor in
/-- C7, witness: a destination-chain confirmation check with no provider
data returns confirmed, and the broadcast result above yields a
`'confirmed'` transaction record. -/
theorem c7_witness :
    (¬("destination" = "source" ∧ "F0A1B2".startsWith "0x" = true) ∧
     isTransactionConfirmed "F0A1B2" "destination" none = true) ∧
    (lockCosmosEscrow brC7W =
       .ok { hash := "F0A1B2", chainId := "cosmoshub-4", blockNumber := 12345,
             gasUsed := toString (98765 : ℕ), status := "confirmed" } ∧
     (lockCosmosEscrow brC7W).toOption.map TransactionResult.status =
       some "confirmed") :=
  ⟨⟨by decide,
    c7_destination_confirmation_constant.1 "F0A1B2" "destination" none (by decide)⟩,
   ⟨rfl, by
     have := c7_destination_confirmation_constant.2 brC7W
       { hash := "F0A1B2", chainId := "cosmoshub-4", blockNumber := 12345,
         gasUsed := toString (98765 : ℕ), status := "confirmed" } rfl
     simp only [lockCosmosEscrow, brC7W]
     simp only [Option.map_eq_some']
     exact ⟨_, rfl, this⟩⟩⟩

/-! ## Claim C8 -/

open ProfitabilityAnalyzer in
/-- C8: `checkLiquidityAvailability` yields the same constant status for
every order — both liquidity flags set, ratio 1.2, slippage 0.1% — so with
that status the fill decision reduces to the two profit thresholds. -/
theorem c8_liquidity_check_constant :
    ∀ (order : AOrder),
      checkLiquidityAvailability order =
        { hasSourceLiquidity := true, hasDestinationLiquidity := true,
          liquidityRatio := 6/5, estimatedSlippage := 1/10 } ∧
      ∀ (netProfitUsd profitMarginPercent : ℚ),
        (shouldFillOrder netProfitUsd profitMarginPercent
            (checkLiquidityAvailability order) = true ↔
          MIN_PROFIT_USD ≤ netProfitUsd ∧ MIN_PROFIT_MARGIN ≤ profitMarginPercent) := by
  intro order
  exact ⟨rfl, fun net margin => shouldFillOrder_eq_true_iff net margin _ rfl rfl⟩

/-! ## Claim C9 -/

open ProfitabilityAnalyzer in
/-- C9: whenever evaluation throws, `analyzeOrder` returns the catch-branch
decision — a rejecting `ResolverDecision` carrying the error message, never
a propagated exception (the embedding is a total function). -/
theorem c9_analysis_error_never_escapes :
    ∀ (env : AnalysisEnv) (order : AOrder) (msg : String),
      env.thrown = some msg →
      analyzeOrder env order =
        { orderHash := order.orderHash
          shouldFill := false
          reason := .analysisError msg
          expectedProfitUsd := 0
          profitMarginPercent := 0
          estimatedGasCost := 0 } := by
  intro env order msg h
  simp [analyzeOrder, h]

open ProfitabilityAnalyzer in
/-- The environment of an evaluation that throws a network error. -/
def envC9W : AnalysisEnv :=
  { srcPriceUsd := 1, dstPriceUsd := 1,
    thrown := some "Request failed with status code 500" }

open ProfitabilityAnalyzer in
/-- C9, witness: the theorem applied to a throwing evaluation of the
scenario order. -/
theorem c9_witness :
    envC9W.thrown = some "Request failed with status code 500" ∧
    analyzeOrder envC9W scenarioOrder =
      { orderHash := scenarioOrder.orderHash
        shouldFill := false
        reason := .analysisError "Request failed with status code 500"
        expectedProfitUsd := 0
        profitMarginPercent := 0
        estimatedGasCost := 0 } :=
  ⟨rfl, c9_analysis_error_never_escapes envC9W scenarioOrder
    "Request failed with status code 500" rfl⟩

/-! ## Claim C10 -/

open OrderMonitor in
/-- C10: `submitOrder` accepts an order exactly when no required field is
falsy (absent/empty), the deadline is strictly in the future, neither amount
parses to a value less than or equal to zero, and both chain ids are in the
supported set; both outcomes are produced before any chain action
(`submitOrder` performs none). -/
theorem c10_submission_validation_iff :
    ∀ (parseFloatFn : String → Option ℚ) (now : ℤ) (o : SubmittedOrder),
      submitOrder parseFloatFn now o = true ↔
        ((∀ p ∈ requiredChecks o, p.2 = false) ∧
         now < o.deadline.getD 0 ∧
         jsLeZero (parseFloatFn (o.srcAmount.getD "")) = false ∧
         jsLeZero (parseFloatFn (o.dstAmount.getD "")) = false ∧
         o.srcChainId.getD (.evm 0) ∈ supportedChains ∧
         o.dstChainId.getD (.evm 0) ∈ supportedChains) := by
  intro pf now o
  unfold submitOrder validateOrder
  cases hfind : (requiredChecks o).find? (fun p => p.2) with
  | some p =>
    simp only
    constructor
    · intro h
      cases h
    · intro ⟨hall, _⟩
      have hp := List.find?_some hfind
      have hpmem := List.mem_of_find?_eq_some hfind
      rw [hall p hpmem] at hp
      cases hp
  | none =>
    rw [List.find?_eq_none] at hfind
    split_ifs with h1 h2 h3
    · constructor
      · intro h; cases h
      · intro ⟨_, hdl, _⟩
        exact absurd h1 (not_le.mpr hdl)
    · constructor
      · intro h; cases h
      · intro ⟨_, _, hs, hd, _⟩
        rw [Bool.or_eq_true] at h2
        rcases h2 with h2 | h2
        · rw [hs] at h2; cases h2
        · rw [hd] at h2; cases h2
    · constructor
      · intro h; cases h
      · intro ⟨_, _, _, _, hsc, hdc⟩
        rw [Bool.or_eq_true] at h3
        rcases h3 with h3 | h3 <;> rw [Bool.not_eq_eq_eq_not] at h3 <;>
          simp only [Bool.not_true] at h3
        · exact absurd (List.elem_iff.mpr hsc) (by simpa using h3)
        · exact absurd (List.elem_iff.mpr hdc) (by simpa using h3)
    · constructor
      · intro _
        refine ⟨?_, ?_, ?_, ?_, ?_, ?_⟩
        · intro p hp
          have := hfind p hp
          simpa using this
        · exact not_le.mp h1
        · rcases hb : jsLeZero (pf (o.srcAmount.getD "")) with _ | _
          · rfl
          · exact absurd (by rw [hb]; simp) h2
        · rcases hb : jsLeZero (pf (o.dstAmount.getD "")) with _ | _
          · rfl
          · exact absurd (by rw [hb]; simp) h2
        · by_contra hc
          apply h3
          simp [List.elem_iff, hc]
        · by_contra hc
          apply h3
          simp [List.elem_iff, hc]
      · intro _
        trivial
